import Mathlib

/-!
A shallow embedding of the core of the `dicom` crate (files
`src/core/tag.rs`, `src/core/dataset.rs`, `src/core/document.rs`,
`src/core/error.rs`), with theorems checking the natural-language
specification against it.

Modelling conventions:
* A Rust `panic!` / `.unwrap()` on `None`/`Err` is modelled by
  `RunResult.panicked`; normal return by `RunResult.ok`.
* Machine integers are modelled as `Nat`/`Int` with explicit range checks
  in the parsers (mirroring `u16::from_str` etc. which reject overflow).
* `f32`/`f64` payloads are modelled by `FloatVal` (exact rational value,
  plus infinity/NaN markers).  The claims under check only depend on
  parse success/failure and on which number was parsed, not on IEEE
  rounding, so the exact-value model is adequate.
* Filesystem effects are modelled by explicit operation traces
  (`FileOp`) and by an `exists`/`metadata` oracle passed as a function.
-/

/-- Outcome of running a piece of Rust code that may `panic!` (including
`.unwrap()` on `None` / `Err`). -/
inductive RunResult (α : Type) where
  | ok (a : α)
  | panicked
deriving DecidableEq, Repr

/-- `SyntaxErrorKind` from `src/core/error.rs`. -/
inductive SyntaxErrorKind where
  | InvalidCharacter (c : Char)
  | InvalidToken (s : String)
  | InvalidNumber (s : String)
  | InvalidString (s : String)
  | InvalidDate (s : String)
  | InvalidTime (s : String)
  | InvalidDateTime (s : String)
  | Error (s : String)
deriving DecidableEq, Repr

/-- `DicomError` from `src/core/error.rs`. -/
inductive DicomError where
  | InvalidTag (s : String)
  | InvalidVR (s : String)
  | InvalidValue (s : String)
  | InvalidLength (s : String)
  | InvalidFile (s : String)
  | InvalidDataset (s : String)
  | ObsoleteElement (s : String)
  | SyntaxError (k : SyntaxErrorKind)
  | IOError (s : String)
  | Error (s : String)
deriving DecidableEq, Repr

/-- A calendar date, modelling `chrono::NaiveDate`. -/
structure DateVal where
  year : Nat
  month : Nat
  day : Nat
deriving DecidableEq, Repr

/-- A time of day with microsecond fraction, modelling `chrono::NaiveTime`. -/
structure TimeVal where
  hour : Nat
  minute : Nat
  second : Nat
  micro : Nat
deriving DecidableEq, Repr

/-- A date-time, modelling `chrono::NaiveDateTime`. -/
structure DateTimeVal where
  date : DateVal
  time : TimeVal
deriving DecidableEq, Repr

/-- Model of an `f32`/`f64` value: the exact rational value of a finite
decimal literal, or an infinity/NaN marker (`"inf"`, `"infinity"`, `"nan"`
parse to these in Rust). -/
inductive FloatVal where
  | finite (q : ℚ)
  | infinite (neg : Bool)
  | nan
deriving DecidableEq, Repr

/-- Digits of a decimal literal to a natural number (`none` on a
non-digit; callers ensure non-emptiness separately). -/
def digitsToNat : List Char → Option Nat
  | [] => some 0
  | c :: cs =>
    if c.isDigit then
      (digitsToNat cs).map (fun n => n + (c.toNat - '0'.toNat) * 10 ^ cs.length)
    else
      none

/-- Longest prefix of decimal digits, with the rest of the input. -/
def spanDigits (cs : List Char) : List Char × List Char :=
  (cs.takeWhile Char.isDigit, cs.dropWhile Char.isDigit)

/-- Rust `uN::from_str`: an optional leading `+`, then one or more digits,
nothing else.  Range checking is done per width below. -/
def parseUnsignedRaw (s : String) : Option Nat :=
  let cs := match s.toList with
    | '+' :: rest => rest
    | cs => cs
  if cs.isEmpty then none
  else if cs.all Char.isDigit then digitsToNat cs
  else none

/-- Rust `iN::from_str`: optional `+`/`-` sign, then one or more digits.
Range checking is done per width below. -/
def parseSignedRaw (s : String) : Option Int :=
  match s.toList with
  | '-' :: rest =>
    if rest.isEmpty then none
    else if rest.all Char.isDigit then (digitsToNat rest).map (fun n => -(n : Int))
    else none
  | '+' :: rest =>
    if rest.isEmpty then none
    else if rest.all Char.isDigit then (digitsToNat rest).map (fun n => (n : Int))
    else none
  | cs =>
    if cs.isEmpty then none
    else if cs.all Char.isDigit then (digitsToNat cs).map (fun n => (n : Int))
    else none

/-- `u16::from_str` (used by the `US` and `OW` parsing rules). -/
def parseU16 (s : String) : Option Nat :=
  (parseUnsignedRaw s).bind (fun n => if n < 2 ^ 16 then some n else none)

/-- `u32::from_str` (used by the `UL` and `OL` parsing rules). -/
def parseU32 (s : String) : Option Nat :=
  (parseUnsignedRaw s).bind (fun n => if n < 2 ^ 32 then some n else none)

/-- `i16::from_str` (used by the `SS` parsing rule). -/
def parseI16 (s : String) : Option Int :=
  (parseSignedRaw s).bind (fun n =>
    if -(2 ^ 15 : Int) ≤ n ∧ n < 2 ^ 15 then some n else none)

/-- `i32::from_str` (used by the `SL` parsing rule). -/
def parseI32 (s : String) : Option Int :=
  (parseSignedRaw s).bind (fun n =>
    if -(2 ^ 31 : Int) ≤ n ∧ n < 2 ^ 31 then some n else none)

/-- `i64::from_str` (used by the `SV` and `OV` parsing rules). -/
def parseI64 (s : String) : Option Int :=
  (parseSignedRaw s).bind (fun n =>
    if -(2 ^ 63 : Int) ≤ n ∧ n < 2 ^ 63 then some n else none)

/-- The exponent part of a float literal: empty, or `e`/`E`, an optional
sign and one or more digits consuming the whole rest. -/
def parseExpPart : List Char → Option Int
  | [] => some 0
  | 'e' :: rest => parseSignedRaw (String.mk rest)
  | 'E' :: rest => parseSignedRaw (String.mk rest)
  | _ => none

/-- The exact rational value of `intPart.fracPart * 10 ^ exp`. -/
def decToRat (intPart fracPart : List Char) (exp : Int) : Option ℚ :=
  (digitsToNat intPart).bind (fun ip =>
    (digitsToNat fracPart).map (fun fp =>
      (((ip : ℚ) + (fp : ℚ) / (10 : ℚ) ^ fracPart.length) * (10 : ℚ) ^ exp)))

/-- The decimal-number body of Rust's float grammar:
`digits [. [digits]] [exp]` or `. digits [exp]`, with at least one digit
overall. -/
def parseDecBody (cs : List Char) : Option ℚ :=
  let (ip, rest) := spanDigits cs
  match rest with
  | '.' :: rest2 =>
    let (fp, rest3) := spanDigits rest2
    if ip.isEmpty ∧ fp.isEmpty then none
    else (parseExpPart rest3).bind (fun e => decToRat ip fp e)
  | _ =>
    if ip.isEmpty then none
    else (parseExpPart rest).bind (fun e => decToRat ip [] e)

/-- Rust `f32::from_str` / `f64::from_str` (used by the `FL`, `FD`, `OD`
and `OF` parsing rules): optional sign, then `inf`, `infinity`, `nan`
(case-insensitive) or a decimal number with optional exponent.  The two
widths share one acceptance grammar; rounding is abstracted away by the
exact-value model. -/
def parseFloat (s : String) : Option FloatVal :=
  let (neg, cs) := match s.toList with
    | '-' :: rest => (true, rest)
    | '+' :: rest => (false, rest)
    | cs => (false, cs)
  let lower := String.mk (cs.map Char.toLower)
  if lower = "inf" ∨ lower = "infinity" then some (FloatVal.infinite neg)
  else if lower = "nan" then some FloatVal.nan
  else (parseDecBody cs).map (fun q => FloatVal.finite (if neg then -q else q))

/-- Days in a month, with Gregorian leap years (as `chrono` validates). -/
def daysInMonth (y m : Nat) : Nat :=
  if m = 2 then
    if y % 4 = 0 ∧ (y % 100 ≠ 0 ∨ y % 400 = 0) then 29 else 28
  else if m = 4 ∨ m = 6 ∨ m = 9 ∨ m = 11 then 30
  else 31

/-- `chrono::NaiveDate::parse_from_str(value, "%Y%m%d")`: eight digits
`YYYYMMDD` consuming the whole input, with a valid calendar date. -/
def parseDateYmd (s : String) : Option DateVal :=
  let cs := s.toList
  if cs.length = 8 ∧ cs.all Char.isDigit then
    (digitsToNat (cs.take 4)).bind (fun y =>
      (digitsToNat ((cs.drop 4).take 2)).bind (fun m =>
        (digitsToNat (cs.drop 6)).bind (fun d =>
          if 1 ≤ m ∧ m ≤ 12 ∧ 1 ≤ d ∧ d ≤ daysInMonth y m then
            some ⟨y, m, d⟩
          else none)))
  else none

/-- The `%.6f` fragment of a `chrono` format string: nothing, or a dot
followed by exactly six digits, in microseconds. -/
def parseFrac6 : List Char → Option Nat
  | [] => some 0
  | '.' :: ds =>
    if ds.length = 6 ∧ ds.all Char.isDigit then digitsToNat ds else none
  | _ => none

/-- `chrono::NaiveTime::parse_from_str(value, "%H%M%S%.6f")`: six digits
`HHMMSS`, then an optional `.ffffff` fraction, consuming the whole
input. -/
def parseTimeHms (s : String) : Option TimeVal :=
  let cs := s.toList
  let hms := cs.take 6
  if hms.length = 6 ∧ hms.all Char.isDigit then
    (digitsToNat (hms.take 2)).bind (fun h =>
      (digitsToNat ((hms.drop 2).take 2)).bind (fun m =>
        (digitsToNat (hms.drop 4)).bind (fun sec =>
          (parseFrac6 (cs.drop 6)).bind (fun f =>
            if h ≤ 23 ∧ m ≤ 59 ∧ sec ≤ 59 then some ⟨h, m, sec, f⟩
            else none))))
  else none

/-- `chrono::NaiveDateTime::parse_from_str(value, "%Y%m%d%H%M%S%.6f")`:
an eight-digit date immediately followed by a time as above. -/
def parseDateTimeYmdHms (s : String) : Option DateTimeVal :=
  let cs := s.toList
  (parseDateYmd (String.mk (cs.take 8))).bind (fun d =>
    (parseTimeHms (String.mk (cs.drop 8))).map (fun t => ⟨d, t⟩))

/-- Accumulator pass for `splitWs`: the pending token is kept reversed. -/
def splitWsAux : List Char → List Char → List String
  | [], acc => if acc.isEmpty then [] else [String.mk acc.reverse]
  | c :: cs, acc =>
    if c.isWhitespace then
      if acc.isEmpty then splitWsAux cs []
      else String.mk acc.reverse :: splitWsAux cs []
    else splitWsAux cs (c :: acc)

/-- Rust `str::split_whitespace`: split on whitespace, dropping empty
pieces. -/
def splitWs (s : String) : List String :=
  splitWsAux s.toList []

/-- `iter().map(|v| v.parse().unwrap()).collect()` over tokens: `none` as
soon as any token fails to parse (the Rust code panics there). -/
def parseAll {α : Type} (f : String → Option α) : List String → Option (List α)
  | [] => some []
  | x :: xs =>
    match f x with
    | none => none
    | some v => (parseAll f xs).map (fun vs => v :: vs)

/-- The UTF-8 bytes of a string, for `value.as_bytes().to_vec()`. -/
def strBytes (s : String) : List Nat :=
  s.toUTF8.toList.map (fun b => b.toNat)

/-- Model of a `dyn DicomTag` trait object (`src/core/tag.rs` trait
`DicomTag` plus the generated impls from `build.rs`): the generated impls
return each accessor from static data, and their `vr()` builds
`VisualRepresentation::new(vr_kind)` from a static kind string, so the
object is a record of that static data.  `debugStr` models the object's
`Debug`/`Display` rendering (`{:#?}`), which the trait leaves to the
implementing type. -/
structure DicomTagObj where
  name : String
  group : Nat
  element : Option Nat
  vrKind : String
  is_deprecated : Bool
  multiplicity : String
  debugStr : String
deriving DecidableEq, Repr

/-- `DicomValue` from `src/core/tag.rs` (the `String` variant holds a
`&dyn ToString`, modelled by the string it renders to). -/
inductive DicomValue where
  | string (s : String)
  | object (o : DicomTagObj)
  | objectVec (l : List DicomTagObj)
deriving DecidableEq, Repr

/-- `Debug` rendering of a vector of trait objects (`{:#?}` of a `Vec`);
the exact layout never matters to the claims, only that it is a function
of the elements. -/
def debugVec (l : List DicomTagObj) : String :=
  "[" ++ String.intercalate ", " (l.map (fun o => o.debugStr)) ++ "]"

/-- `Display for DicomValue` (`src/core/tag.rs` lines 309-319), used by
`set_inner` via `value.to_string()`. -/
def DicomValue.toStr : DicomValue → String
  | DicomValue.string s => s
  | DicomValue.object o => o.debugStr
  | DicomValue.objectVec l => debugVec l

/-- `DicomValue::object_vec` (`src/core/tag.rs` lines 329-334). -/
def DicomValue.object_vec : DicomValue → List DicomTagObj
  | DicomValue.objectVec l => l
  | _ => []

/-- The 27-variant `VisualRepresentation` enum from `src/core/tag.rs`.
`Cow<str>` payloads are strings, `Vec<u8>` payloads are byte lists,
numeric payloads follow the modelling conventions above, and `SQ` holds
trait-object records. -/
inductive VisualRepresentation where
  | AE (s : String)
  | AS (s : String)
  | AT (s : String)
  | CS (s : String)
  | DA (d : DateVal)
  | DS (s : String)
  | DT (d : DateTimeVal)
  | FL (f : FloatVal)
  | FD (f : FloatVal)
  | IS (s : String)
  | LO (s : String)
  | LT (s : String)
  | OB (b : List Nat)
  | OD (v : List FloatVal)
  | OF (v : List FloatVal)
  | OL (v : List Nat)
  | OV (v : List Int)
  | OW (v : List Nat)
  | PN (s : String)
  | SH (s : String)
  | SL (n : Int)
  | SQ (l : List DicomTagObj)
  | SS (n : Int)
  | ST (s : String)
  | SV (n : Int)
  | TM (t : TimeVal)
  | UC (s : String)
  | UI (s : String)
  | UL (n : Nat)
  | UN (b : List Nat)
  | UR (s : String)
  | US (n : Nat)
  | UT (s : String)
deriving DecidableEq, Repr

namespace VisualRepresentation

/-- Lift an `Option` produced by a fallible parse to the result of the
Rust `.unwrap()` call on it. -/
def unwrapOpt {α β : Type} (o : Option α) (f : α → β) : RunResult β :=
  match o with
  | some a => RunResult.ok (f a)
  | none => RunResult.panicked

/-- `VisualRepresentation::from_string` (`src/core/tag.rs` lines 66-132).
Every `.unwrap()` on a parse is modelled by `RunResult.panicked` on the
parse failing; kinds without a fallible parse always return `ok`. -/
def from_string (vr : String) (value : String) : RunResult VisualRepresentation :=
  match vr with
  | "AE" => RunResult.ok (AE value)
  | "AS" => RunResult.ok (AS value)
  | "AT" => RunResult.ok (AT value)
  | "CS" => RunResult.ok (CS value)
  | "DA" => unwrapOpt (parseDateYmd value) DA
  | "DS" => RunResult.ok (DS value)
  | "DT" => unwrapOpt (parseDateTimeYmdHms value) DT
  | "FL" => unwrapOpt (parseFloat value) FL
  | "FD" => unwrapOpt (parseFloat value) FD
  | "IS" => RunResult.ok (IS value)
  | "LO" => RunResult.ok (LO value)
  | "LT" => RunResult.ok (LT value)
  | "OB" => RunResult.ok (OB (strBytes value))
  | "OD" => unwrapOpt (parseAll parseFloat (splitWs value)) OD
  | "OF" => unwrapOpt (parseAll parseFloat (splitWs value)) OF
  | "OL" => unwrapOpt (parseAll parseU32 (splitWs value)) OL
  | "OV" => unwrapOpt (parseAll parseI64 (splitWs value)) OV
  | "OW" => unwrapOpt (parseAll parseU16 (splitWs value)) OW
  | "PN" => RunResult.ok (PN value)
  | "SH" => RunResult.ok (SH value)
  | "SL" => unwrapOpt (parseI32 value) SL
  | "SQ" => RunResult.ok (SQ [])
  | "SS" => unwrapOpt (parseI16 value) SS
  | "ST" => RunResult.ok (ST value)
  | "SV" => unwrapOpt (parseI64 value) SV
  | "TM" => unwrapOpt (parseTimeHms value) TM
  | "UC" => RunResult.ok (UC value)
  | "UI" => RunResult.ok (UI value)
  | "UL" => unwrapOpt (parseU32 value) UL
  | "UN" => RunResult.ok (UN (strBytes value))
  | "UR" => RunResult.ok (UR value)
  | "US" => unwrapOpt (parseU16 value) US
  | "UT" => RunResult.ok (UT value)
  | _ => RunResult.ok (UN (strBytes value))

/-- `VisualRepresentation::new` (`src/core/tag.rs` lines 134-171);
`chrono`'s `Default` date/time is the Unix epoch, and
`NaiveTime::from_hms_opt(0, 0, 0).unwrap()` is midnight. -/
def new (vr : String) : VisualRepresentation :=
  match vr with
  | "AE" => AE ""
  | "AS" => AS ""
  | "AT" => AT ""
  | "CS" => CS ""
  | "DA" => DA ⟨1970, 1, 1⟩
  | "DS" => DS ""
  | "DT" => DT ⟨⟨1970, 1, 1⟩, ⟨0, 0, 0, 0⟩⟩
  | "FL" => FL (FloatVal.finite 0)
  | "FD" => FD (FloatVal.finite 0)
  | "IS" => IS ""
  | "LO" => LO ""
  | "LT" => LT ""
  | "OB" => OB []
  | "OD" => OD []
  | "OF" => OF []
  | "OL" => OL []
  | "OV" => OV []
  | "OW" => OW []
  | "PN" => PN ""
  | "SH" => SH ""
  | "SL" => SL 0
  | "SQ" => SQ []
  | "SS" => SS 0
  | "ST" => ST ""
  | "SV" => SV 0
  | "TM" => TM ⟨0, 0, 0, 0⟩
  | "UC" => UC ""
  | "UI" => UI ""
  | "UL" => UL 0
  | "UN" => UN []
  | "UR" => UR ""
  | "US" => US 0
  | "UT" => UT ""
  | _ => UN []

/-- The value stored into `*mutable_self.get()` by the `match` inside
`VisualRepresentation::set_inner` (`src/core/tag.rs` lines 181-302):
the per-variant re-parse of `value.to_string()` applied to the clone of
`self` held in the `UnsafeCell`.  `panicked` models the `.unwrap()`
calls inside the arms. -/
def setClone (v : VisualRepresentation) (value : DicomValue) : RunResult VisualRepresentation :=
  match v with
  | AE _ => RunResult.ok (AE value.toStr)
  | AS _ => RunResult.ok (AS value.toStr)
  | AT _ => RunResult.ok (AT value.toStr)
  | CS _ => RunResult.ok (CS value.toStr)
  | DA _ => unwrapOpt (parseDateYmd value.toStr) DA
  | DS _ => RunResult.ok (DS value.toStr)
  | DT _ => unwrapOpt (parseDateTimeYmdHms value.toStr) DT
  | FL _ => unwrapOpt (parseFloat value.toStr) FL
  | FD _ => unwrapOpt (parseFloat value.toStr) FD
  | IS _ => RunResult.ok (IS value.toStr)
  | LO _ => RunResult.ok (LO value.toStr)
  | LT _ => RunResult.ok (LT value.toStr)
  | OB _ => RunResult.ok (OB (strBytes value.toStr))
  | OD _ => unwrapOpt (parseAll parseFloat (splitWs value.toStr)) OD
  | OF _ => unwrapOpt (parseAll parseFloat (splitWs value.toStr)) OF
  | OL _ => unwrapOpt (parseAll parseU32 (splitWs value.toStr)) OL
  | OV _ => unwrapOpt (parseAll parseI64 (splitWs value.toStr)) OV
  | OW _ => unwrapOpt (parseAll parseU16 (splitWs value.toStr)) OW
  | PN _ => RunResult.ok (PN value.toStr)
  | SH _ => RunResult.ok (SH value.toStr)
  | SL _ => unwrapOpt (parseI32 value.toStr) SL
  | SQ _ => RunResult.ok (SQ value.object_vec)
  | SS _ => unwrapOpt (parseI16 value.toStr) SS
  | ST _ => RunResult.ok (ST value.toStr)
  | SV _ => unwrapOpt (parseI64 value.toStr) SV
  | TM _ => unwrapOpt (parseTimeHms value.toStr) TM
  | UC _ => RunResult.ok (UC value.toStr)
  | UI _ => RunResult.ok (UI value.toStr)
  | UL _ => unwrapOpt (parseU32 value.toStr) UL
  | UN _ => RunResult.ok (UN (strBytes value.toStr))
  | UR _ => RunResult.ok (UR value.toStr)
  | US _ => unwrapOpt (parseU16 value.toStr) US
  | UT _ => RunResult.ok (UT value.toStr)

/-- `VisualRepresentation::set` / `set_inner` (`src/core/tag.rs` lines
173-306).  The source builds `UnsafeCell::new(self.clone())` — a fresh
temporary holding a clone — writes the re-parsed payload into that
temporary through `mutable_self.get()`, drops the temporary at the end
of the scope, and returns `self`.  The result is the pair
(post-call state of `self`'s storage, value behind the returned
reference); both are `self`'s storage, which no arm writes to, so on the
non-panicking paths both components are the unmodified `v` and the
mutated clone (`setClone v value`) is discarded. -/
def set (v : VisualRepresentation) (value : DicomValue) :
    RunResult (VisualRepresentation × VisualRepresentation) :=
  match setClone v value with
  | RunResult.panicked => RunResult.panicked
  | RunResult.ok _ => RunResult.ok (v, v)

end VisualRepresentation

/-- `Dataset` (`src/core/dataset.rs`): a `VecDeque<Rc<dyn DicomTag>>`,
modelled as a list of trait-object records. -/
structure Dataset where
  objects : List DicomTagObj
deriving DecidableEq, Repr

namespace Dataset

/-- `Dataset::new`. -/
def new : Dataset := ⟨[]⟩

/-- `Dataset::get` (`src/core/dataset.rs` lines 19-21): bounds-checked
read via `VecDeque::get`. -/
def get (d : Dataset) (position : Nat) : Option DicomTagObj :=
  d.objects[position]?

/-- `Dataset::len`. -/
def len (d : Dataset) : Nat := d.objects.length

/-- `Dataset::is_empty`. -/
def is_empty (d : Dataset) : Bool := d.objects.isEmpty

/-- `Dataset::clear`. -/
def clear (_d : Dataset) : Dataset := ⟨[]⟩

/-- `Dataset::push_back`. -/
def push_back (d : Dataset) (o : DicomTagObj) : Dataset :=
  ⟨d.objects ++ [o]⟩

/-- `Dataset::push_front`. -/
def push_front (d : Dataset) (o : DicomTagObj) : Dataset :=
  ⟨o :: d.objects⟩

/-- `Dataset::insert` (`src/core/dataset.rs` lines 43-49): a guarded
`VecDeque::insert` that panics — `panic!("Position ... out of bounds")` —
whenever `position < len` fails, i.e. for every `position ≥ len`,
including `position = len`. -/
def insert (d : Dataset) (position : Nat) (o : DicomTagObj) : RunResult Dataset :=
  if position < d.objects.length then
    RunResult.ok ⟨d.objects.insertIdx position o⟩
  else
    RunResult.panicked

/-- `Dataset::remove_at` (`src/core/dataset.rs` lines 51-57): removed
element paired with the mutated dataset. -/
def remove_at (d : Dataset) (position : Nat) : Option DicomTagObj × Dataset :=
  if position < d.objects.length then
    (d.objects[position]?, ⟨d.objects.eraseIdx position⟩)
  else
    (none, d)

/-- `Dataset::replace_at` (`src/core/dataset.rs` lines 59-66).  Note the
body: it calls `VecDeque::insert(position, dicom_object)` — an
insert-and-shift — and then returns `self.objects.get(position)`, the
element just inserted.  The previous occupant is shifted one place later,
not removed and not returned.  The pair is (returned value, mutated
dataset). -/
def replace_at (d : Dataset) (position : Nat) (o : DicomTagObj) :
    Option DicomTagObj × Dataset :=
  if position < d.objects.length then
    let objs := d.objects.insertIdx position o
    (objs[position]?, ⟨objs⟩)
  else
    (none, d)

/-- `Dataset::pop_back`. -/
def pop_back (d : Dataset) : Option DicomTagObj × Dataset :=
  match d.objects.getLast? with
  | none => (none, d)
  | some o => (some o, ⟨d.objects.dropLast⟩)

/-- `Dataset::pop_front`. -/
def pop_front (d : Dataset) : Option DicomTagObj × Dataset :=
  match d.objects with
  | [] => (none, d)
  | o :: rest => (some o, ⟨rest⟩)

/-- `Display for Dataset` (`src/core/dataset.rs` lines 87-95): the
concatenation of each object's own rendering, in order.  The generated
`Display` impls for tag objects render `{:#?}`, modelled by
`debugStr`. -/
def toStr (d : Dataset) : String :=
  (d.objects.map (fun o => o.debugStr)).foldl (fun a b => a ++ b) ""

end Dataset

/-- `DocumentState` (`src/core/document.rs`). -/
inductive DocumentState where
  | Open
  | Closed
  | Modified
deriving DecidableEq, Repr

/-- `DocumentMode` (`src/core/document.rs`). -/
inductive DocumentMode where
  | ReadOnly
  | ReadWrite
deriving DecidableEq, Repr

/-- `WritingMode` (`src/core/document.rs`). -/
inductive WritingMode where
  | Append
  | Overwrite
  | Truncate
deriving DecidableEq, Repr

/-- One filesystem side effect of a `DicomDocument` method, in program
order.  An empty trace means the file was not touched. -/
inductive FileOp where
  | setLenZero
  | seekEnd
  | writeAll (bytes : String)
  | syncAll
deriving DecidableEq, Repr

/-- `DicomDocument` (`src/core/document.rs`).  The `file: File` handle is
left implicit: its effects appear as `FileOp` traces and its metadata is
queried through an oracle argument. -/
structure DicomDocument where
  path : Option String
  state : DocumentState
  dataset : Option Dataset
  mode : DocumentMode
  writer : WritingMode
  should_sync : Bool
deriving DecidableEq, Repr

/-- Filesystem metadata for a path, modelling `fs::metadata`:
`len`, and the three timestamps, which `std` itself may fail to provide
(hence `Option`, the `io::Result` of `created()` etc.). -/
structure FsMetadata where
  len : Nat
  created : Option Nat
  modified : Option Nat
  accessed : Option Nat
deriving DecidableEq, Repr

namespace DicomDocument

/-- `DicomDocument::open` (`src/core/document.rs` lines 64-95), on the
path where `File::options().append(true).open` / `File::create`
succeeds; `fsExists` is the filesystem oracle for `PathBuf::exists`.
Both branches build the same document except for the writing mode:
`Append` when the path exists, `Overwrite` when it is created.
(`open` is a Lean keyword, hence the name `openDoc`.) -/
def openDoc (fsExists : String → Bool) (path : String) : DicomDocument :=
  if fsExists path then
    { path := some path
      state := DocumentState.Open
      dataset := none
      mode := DocumentMode.ReadWrite
      writer := WritingMode.Append
      should_sync := true }
  else
    { path := some path
      state := DocumentState.Open
      dataset := none
      mode := DocumentMode.ReadWrite
      writer := WritingMode.Overwrite
      should_sync := true }

/-- `DicomDocument::refresh`. -/
def refresh (doc : DicomDocument) : DicomDocument :=
  { doc with should_sync := true }

/-- `DicomDocument::write` (`src/core/document.rs` lines 117-134).
Returns (function result, document after the call, filesystem trace).
In `ReadOnly` mode it returns `Err(IOError)` before touching the file or
any field; otherwise it truncates first under `Truncate`, seeks to the
end first under `Append`, writes the rendered dataset, and sets the
state to `Modified`. -/
def write (doc : DicomDocument) (ds : Dataset) :
    Except DicomError Unit × DicomDocument × List FileOp :=
  if doc.mode = DocumentMode.ReadOnly then
    (Except.error (DicomError.IOError "Document is read-only"), doc, [])
  else
    let pre : List FileOp :=
      if doc.writer = WritingMode.Truncate then [FileOp.setLenZero]
      else if doc.writer = WritingMode.Append then [FileOp.seekEnd]
      else []
    (Except.ok (),
     { doc with state := DocumentState.Modified },
     pre ++ [FileOp.writeAll ds.toStr])

/-- `DicomDocument::close` (`src/core/document.rs` lines 136-144), on
the path where `sync_all` succeeds (the claim under check is about a
`close()` that succeeds): flush, discard the path, set `ReadOnly`,
state `Closed`. -/
def close (doc : DicomDocument) :
    Except DicomError Unit × DicomDocument × List FileOp :=
  (Except.ok (),
   { doc with
      path := none
      state := DocumentState.Closed
      mode := DocumentMode.ReadOnly },
   [FileOp.syncAll])

/-- `DicomDocument::is_open`. -/
def is_open (doc : DicomDocument) : Bool :=
  match doc.state with
  | DocumentState.Open => true
  | _ => false

/-- `DicomDocument::is_modified`. -/
def is_modified (doc : DicomDocument) : Bool :=
  match doc.state with
  | DocumentState.Modified => true
  | _ => false

/-- `DicomDocument::get_path`: `self.path.as_ref().map(|p| p.to_str().unwrap())`;
paths are modelled as strings, so `to_str` always succeeds. -/
def get_path (doc : DicomDocument) : Option String :=
  doc.path

end DicomDocument

/-- `std::path::Path::file_name`: the final path component, ignoring a
trailing separator; `None` for an empty path, a root, `"."` or `".."`. -/
def pathFileName (p : String) : Option String :=
  let trimmed := String.mk (p.toList.reverse.dropWhile (fun c => c = '/')).reverse
  let comp := String.mk ((trimmed.toList.reverse.takeWhile (fun c => c ≠ '/')).reverse)
  if comp = "" ∨ comp = "." ∨ comp = ".." then none else some comp

/-- `std::path::Path::extension`: the part of the file name after its
last `.`; `None` when the file name has no `.` or only a leading one. -/
def pathExtension (p : String) : Option String :=
  (pathFileName p).bind (fun f =>
    let cs := f.toList
    let afterRev := cs.reverse.takeWhile (fun c => c ≠ '.')
    if afterRev.length = cs.length then none
    else if afterRev.length + 1 = cs.length ∧ cs.headD ' ' = '.' then none
    else some (String.mk afterRev.reverse))

namespace DicomDocument

/-- `DicomDocument::get_name` (`src/core/document.rs` lines 164-168):
`self.path.as_ref().map(|p| p.file_name().unwrap().to_str().unwrap())` —
the inner `unwrap` panics when `file_name` is `None`. -/
def get_name (doc : DicomDocument) : RunResult (Option String) :=
  match doc.path with
  | none => RunResult.ok none
  | some p =>
    match pathFileName p with
    | some n => RunResult.ok (some n)
    | none => RunResult.panicked

/-- `DicomDocument::get_extension` (`src/core/document.rs` lines
170-174): `self.path.as_ref().map(|p| p.extension().unwrap().to_str().unwrap())`
— the inner `unwrap` panics when the held path has no extension; `None`
is produced only by the outer `map` when no path is held. -/
def get_extension (doc : DicomDocument) : RunResult (Option String) :=
  match doc.path with
  | none => RunResult.ok none
  | some p =>
    match pathExtension p with
    | some e => RunResult.ok (some e)
    | none => RunResult.panicked

/-- `DicomDocument::get_size` (`src/core/document.rs` lines 176-180):
`fs::metadata(p).unwrap().len()`; `meta` is the filesystem oracle, and
a failing `fs::metadata` makes the `unwrap` panic. -/
def get_size (meta : String → Option FsMetadata) (doc : DicomDocument) :
    RunResult (Option Nat) :=
  match doc.path with
  | none => RunResult.ok none
  | some p =>
    match meta p with
    | some m => RunResult.ok (some m.len)
    | none => RunResult.panicked

/-- `DicomDocument::get_creation_date` (`src/core/document.rs` lines
182-186): `fs::metadata(p).unwrap().created().unwrap()`. -/
def get_creation_date (meta : String → Option FsMetadata) (doc : DicomDocument) :
    RunResult (Option Nat) :=
  match doc.path with
  | none => RunResult.ok none
  | some p =>
    match meta p with
    | some m =>
      match m.created with
      | some t => RunResult.ok (some t)
      | none => RunResult.panicked
    | none => RunResult.panicked

/-- `DicomDocument::get_modification_date` (`src/core/document.rs` lines
188-192). -/
def get_modification_date (meta : String → Option FsMetadata) (doc : DicomDocument) :
    RunResult (Option Nat) :=
  match doc.path with
  | none => RunResult.ok none
  | some p =>
    match meta p with
    | some m =>
      match m.modified with
      | some t => RunResult.ok (some t)
      | none => RunResult.panicked
    | none => RunResult.panicked

/-- `DicomDocument::get_access_date` (`src/core/document.rs` lines
194-198). -/
def get_access_date (meta : String → Option FsMetadata) (doc : DicomDocument) :
    RunResult (Option Nat) :=
  match doc.path with
  | none => RunResult.ok none
  | some p =>
    match meta p with
    | some m =>
      match m.accessed with
      | some t => RunResult.ok (some t)
      | none => RunResult.panicked
    | none => RunResult.panicked

end DicomDocument

/-- Registry metadata for one tag, as in spec §4.2:
`Tag -> {name, vr_kind, multiplicity, is_deprecated}` (the generated
registry in `build.rs` carries exactly these fields per element). -/
structure AttributeMetadata where
  name : String
  vr_kind : String
  multiplicity : String
  is_deprecated : Bool
deriving DecidableEq, Repr

/-- An Attribute per spec §3:
`{tag, name, vr_kind, vr_value, multiplicity, is_deprecated}`. -/
structure Attribute where
  tag : Nat × Nat
  name : String
  vr_kind : String
  vr_value : VisualRepresentation
  multiplicity : String
  is_deprecated : Bool
deriving DecidableEq, Repr

/-- Modelled from the spec: `src/` contains only the `ObsoleteElement`
error variant (`src/core/error.rs`, "Use a Force flag to allow legacy
properties.") and the generated `is_deprecated` registry metadata
(`build.rs`); the Attribute constructor that consumes them is not under
`src/`.  Spec §4.2: constructing from a tag absent from the registry
fails with `InvalidTag`; constructing an Attribute whose metadata marks
`is_deprecated = true` fails with `ObsoleteElement` unless the caller
passes the explicit legacy-allow flag; otherwise the attribute is
materialized with the kind's default value. -/
def mkAttribute (lookup : Nat × Nat → Option AttributeMetadata)
    (tag : Nat × Nat) (allowLegacy : Bool) : Except DicomError Attribute :=
  match lookup tag with
  | none => Except.error (DicomError.InvalidTag (toString tag.1))
  | some md =>
    if md.is_deprecated ∧ ¬allowLegacy then
      Except.error (DicomError.ObsoleteElement md.name)
    else
      Except.ok
        { tag := tag
          name := md.name
          vr_kind := md.vr_kind
          vr_value := VisualRepresentation.new md.vr_kind
          multiplicity := md.multiplicity
          is_deprecated := md.is_deprecated }

/-- Modelled from the spec: the mutation path for an Attribute is also
not under `src/`.  Spec §4.2 with §3: mutating an Attribute whose
metadata marks `is_deprecated = true` fails with `ObsoleteElement`
unless the legacy-allow flag is passed; otherwise only `vr_value` is
replaced. -/
def mutateAttribute (attr : Attribute) (allowLegacy : Bool)
    (v : VisualRepresentation) : Except DicomError Attribute :=
  if attr.is_deprecated ∧ ¬allowLegacy then
    Except.error (DicomError.ObsoleteElement attr.name)
  else
    Except.ok { attr with vr_value := v }

/-- Fixture: the Patient's Name tag object `(0010,0010)`, VR `PN`. -/
def sampleA : DicomTagObj :=
  { name := "PatientName"
    group := 16
    element := some 16
    vrKind := "PN"
    is_deprecated := false
    multiplicity := "1"
    debugStr := "PatientName" }

/-- Fixture: the Patient ID tag object `(0010,0020)`, VR `LO`. -/
def sampleB : DicomTagObj :=
  { name := "PatientID"
    group := 16
    element := some 32
    vrKind := "LO"
    is_deprecated := false
    multiplicity := "1"
    debugStr := "PatientID" }

/-- Fixture: a document in `ReadOnly` mode (as left behind by `close`). -/
def docRO : DicomDocument :=
  { path := none
    state := DocumentState.Closed
    dataset := none
    mode := DocumentMode.ReadOnly
    writer := WritingMode.Append
    should_sync := false }

/-- Fixture: a freshly created document in `ReadWrite` mode with the
`Truncate` disposition. -/
def docRW : DicomDocument :=
  { path := some "study.dcm"
    state := DocumentState.Open
    dataset := none
    mode := DocumentMode.ReadWrite
    writer := WritingMode.Truncate
    should_sync := true }

/-- Fixture: an open document holding a path with no file extension. -/
def docNoExt : DicomDocument :=
  { path := some "datafile"
    state := DocumentState.Open
    dataset := none
    mode := DocumentMode.ReadWrite
    writer := WritingMode.Append
    should_sync := true }

/-- Fixture: a one-entry registry marking tag `(0008,0041)`
(Data Set Subtype, retired in the DICOM standard) as deprecated. -/
def sampleRegistry : Nat × Nat → Option AttributeMetadata := fun t =>
  if t = (8, 65) then
    some { name := "DataSetSubtype"
           vr_kind := "LO"
           multiplicity := "1-n"
           is_deprecated := true }
  else none

/-- Metadata record for the fixture registry's single tag. -/
def sampleMd : AttributeMetadata :=
  { name := "DataSetSubtype"
    vr_kind := "LO"
    multiplicity := "1-n"
    is_deprecated := true }

theorem parseAll_eq_none_of_mem {α : Type} (f : String → Option α)
    {l : List String} {a : String} (ha : a ∈ l) (hf : f a = none) :
    parseAll f l = none := by
  induction l with
  | nil => cases ha
  | cons x xs ih =>
    rcases List.mem_cons.mp ha with h | h
    · subst h
      simp [parseAll, hf]
    · unfold parseAll
      cases hx : f x with
      | none => rfl
      | some v => simp [ih h]

theorem from_string_FL_eq (t : String) :
    VisualRepresentation.from_string "FL" t =
      VisualRepresentation.unwrapOpt (parseFloat t) VisualRepresentation.FL := rfl

theorem from_string_FD_eq (t : String) :
    VisualRepresentation.from_string "FD" t =
      VisualRepresentation.unwrapOpt (parseFloat t) VisualRepresentation.FD := rfl

theorem from_string_SL_eq (t : String) :
    VisualRepresentation.from_string "SL" t =
      VisualRepresentation.unwrapOpt (parseI32 t) VisualRepresentation.SL := rfl

theorem from_string_SS_eq (t : String) :
    VisualRepresentation.from_string "SS" t =
      VisualRepresentation.unwrapOpt (parseI16 t) VisualRepresentation.SS := rfl

theorem from_string_SV_eq (t : String) :
    VisualRepresentation.from_string "SV" t =
      VisualRepresentation.unwrapOpt (parseI64 t) VisualRepresentation.SV := rfl

theorem from_string_UL_eq (t : String) :
    VisualRepresentation.from_string "UL" t =
      VisualRepresentation.unwrapOpt (parseU32 t) VisualRepresentation.UL := rfl

theorem from_string_US_eq (t : String) :
    VisualRepresentation.from_string "US" t =
      VisualRepresentation.unwrapOpt (parseU16 t) VisualRepresentation.US := rfl

theorem from_string_OD_eq (t : String) :
    VisualRepresentation.from_string "OD" t =
      VisualRepresentation.unwrapOpt (parseAll parseFloat (splitWs t))
        VisualRepresentation.OD := rfl

theorem from_string_OF_eq (t : String) :
    VisualRepresentation.from_string "OF" t =
      VisualRepresentation.unwrapOpt (parseAll parseFloat (splitWs t))
        VisualRepresentation.OF := rfl

theorem from_string_OL_eq (t : String) :
    VisualRepresentation.from_string "OL" t =
      VisualRepresentation.unwrapOpt (parseAll parseU32 (splitWs t))
        VisualRepresentation.OL := rfl

theorem from_string_OV_eq (t : String) :
    VisualRepresentation.from_string "OV" t =
      VisualRepresentation.unwrapOpt (parseAll parseI64 (splitWs t))
        VisualRepresentation.OV := rfl

theorem from_string_OW_eq (t : String) :
    VisualRepresentation.from_string "OW" t =
      VisualRepresentation.unwrapOpt (parseAll parseU16 (splitWs t))
        VisualRepresentation.OW := rfl

theorem unwrapOpt_none {α β : Type} (f : α → β) :
    VisualRepresentation.unwrapOpt (none : Option α) f = RunResult.panicked := rfl

theorem unwrapOpt_ok_inv {α β : Type} {o : Option α} {f : α → β} {b : β}
    (h : VisualRepresentation.unwrapOpt o f = RunResult.ok b) :
    ∃ a, o = some a ∧ f a = b := by
  cases o with
  | none => cases h
  | some a =>
    refine ⟨a, rfl, ?_⟩
    cases h
    rfl

/-- Claim C1 (code_bug evaluation).  The claim says `set(input)` replaces
the payload inside the already-selected variant and fails with
`InvalidValue`/`SyntaxError` on malformed input.  Evaluating the
embedding of `VisualRepresentation::set` at `v = US(0)`: with the
well-formed input `"5"` the call succeeds but both the post-call state
and the returned reference are still `US 0` — the re-parsed payload
`US 5` only ever exists in the discarded clone (`setClone`) — and with
the malformed input `"abc"` the call panics instead of returning a
`DicomError`. -/
theorem vr_set_failing_input_eval :
    VisualRepresentation.set (VisualRepresentation.US 0) (DicomValue.string "5") =
      RunResult.ok (VisualRepresentation.US 0, VisualRepresentation.US 0) ∧
    VisualRepresentation.setClone (VisualRepresentation.US 0) (DicomValue.string "5") =
      RunResult.ok (VisualRepresentation.US 5) ∧
    VisualRepresentation.set (VisualRepresentation.US 0) (DicomValue.string "abc") =
      RunResult.panicked := by
  refine ⟨?_, ?_, ?_⟩ <;> decide

/-- Claim C9: on every input on which `set` does not panic, the call
leaves the receiver completely unchanged (the mutation went into the
temporary clone, which is dropped) and the returned reference is the
unmodified original; and `set` panics exactly when the per-variant
re-parse applied to the clone panics. -/
theorem vr_set_leaves_original_unchanged
    (v : VisualRepresentation) (d : DicomValue) :
    (VisualRepresentation.set v d = RunResult.panicked ∨
      VisualRepresentation.set v d = RunResult.ok (v, v)) ∧
    (VisualRepresentation.set v d = RunResult.panicked ↔
      VisualRepresentation.setClone v d = RunResult.panicked) := by
  cases h : VisualRepresentation.setClone v d with
  | ok c => simp [VisualRepresentation.set, h]
  | panicked => simp [VisualRepresentation.set, h]

/-- Claim C2 (code_bug evaluation).  The claim says `replace_at(pos, attr)`
replaces in place, keeps `len` unchanged and returns the previous
occupant.  Evaluating the embedding of `Dataset::replace_at` on the
one-element dataset `[sampleA]` at position 0 with `sampleB`: the call
returns the newly inserted `sampleB` (not the previous occupant
`sampleA`), and the dataset afterwards is `[sampleB, sampleA]` of length
2 — an insert-and-shift, not a replacement. -/
theorem dataset_replace_at_failing_input_eval :
    (Dataset.replace_at ⟨[sampleA]⟩ 0 sampleB).1 = some sampleB ∧
    (Dataset.replace_at ⟨[sampleA]⟩ 0 sampleB).2 = ⟨[sampleB, sampleA]⟩ ∧
    (Dataset.replace_at ⟨[sampleA]⟩ 0 sampleB).2.len = 2 := by
  refine ⟨?_, ?_, ?_⟩ <;> decide

/-- Claim C3 (code_bug evaluation).  The claim (and spec §8) says
`insert` at `pos == len()` must be accepted with append semantics and
that `pos > len` fails without a crash.  Evaluating the embedding of
`Dataset::insert`: inserting at position 0 into an empty dataset
(`pos == len == 0`) panics, inserting at position 1 into a one-element
dataset (`pos == len == 1`) panics, and inserting at position 2 there
(`pos > len`) also panics; only `pos < len` succeeds, where the element
does land at `pos` and `len` grows by 1. -/
theorem dataset_insert_at_len_panics_eval :
    Dataset.insert ⟨[]⟩ 0 sampleA = RunResult.panicked ∧
    Dataset.insert ⟨[sampleA]⟩ 1 sampleB = RunResult.panicked ∧
    Dataset.insert ⟨[sampleA]⟩ 2 sampleB = RunResult.panicked ∧
    Dataset.insert ⟨[sampleA]⟩ 0 sampleB = RunResult.ok ⟨[sampleB, sampleA]⟩ := by
  refine ⟨?_, ?_, ?_, ?_⟩ <;> decide

/-- Claim C4 (counterexample).  The claim says that for malformed input
the numeric kinds fail with the `InvalidValue` error.  But
`VisualRepresentation::from_string` returns `Self` — it has no error
channel at all — and on malformed numeric input it panics through
`.unwrap()`, as the evaluation of the embedding at `"not-a-number"`
shows for every numeric scalar and vector kind. -/
theorem from_string_numeric_malformed_panics_cex :
    VisualRepresentation.from_string "FL" "not-a-number" = RunResult.panicked ∧
    VisualRepresentation.from_string "FD" "not-a-number" = RunResult.panicked ∧
    VisualRepresentation.from_string "SL" "not-a-number" = RunResult.panicked ∧
    VisualRepresentation.from_string "SS" "not-a-number" = RunResult.panicked ∧
    VisualRepresentation.from_string "SV" "not-a-number" = RunResult.panicked ∧
    VisualRepresentation.from_string "UL" "not-a-number" = RunResult.panicked ∧
    VisualRepresentation.from_string "US" "not-a-number" = RunResult.panicked ∧
    VisualRepresentation.from_string "OD" "not-a-number" = RunResult.panicked ∧
    VisualRepresentation.from_string "OF" "not-a-number" = RunResult.panicked ∧
    VisualRepresentation.from_string "OL" "not-a-number" = RunResult.panicked ∧
    VisualRepresentation.from_string "OV" "not-a-number" = RunResult.panicked ∧
    VisualRepresentation.from_string "OW" "not-a-number" = RunResult.panicked := by
  refine ⟨?_, ?_, ?_, ?_, ?_, ?_, ?_, ?_, ?_, ?_, ?_, ?_⟩ <;> decide

/-- Claim C4 as amended: for every numeric VR kind, malformed textual
input (input the kind's native parser rejects; for the vector kinds, any
whitespace-separated token the element parser rejects) makes
`from_string` panic through `.unwrap()` — it cannot return
`InvalidValue` since it has no error channel — and on success the stored
payload is exactly the parsed number, so malformed input is never
silently coerced to zero. -/
theorem from_string_numeric_malformed_panics (t : String) :
    (parseFloat t = none →
      VisualRepresentation.from_string "FL" t = RunResult.panicked ∧
      VisualRepresentation.from_string "FD" t = RunResult.panicked) ∧
    (parseI32 t = none →
      VisualRepresentation.from_string "SL" t = RunResult.panicked) ∧
    (parseI16 t = none →
      VisualRepresentation.from_string "SS" t = RunResult.panicked) ∧
    (parseI64 t = none →
      VisualRepresentation.from_string "SV" t = RunResult.panicked) ∧
    (parseU32 t = none →
      VisualRepresentation.from_string "UL" t = RunResult.panicked) ∧
    (parseU16 t = none →
      VisualRepresentation.from_string "US" t = RunResult.panicked) ∧
    (∀ tok ∈ splitWs t, parseFloat tok = none →
      VisualRepresentation.from_string "OD" t = RunResult.panicked ∧
      VisualRepresentation.from_string "OF" t = RunResult.panicked) ∧
    (∀ tok ∈ splitWs t, parseU32 tok = none →
      VisualRepresentation.from_string "OL" t = RunResult.panicked) ∧
    (∀ tok ∈ splitWs t, parseI64 tok = none →
      VisualRepresentation.from_string "OV" t = RunResult.panicked) ∧
    (∀ tok ∈ splitWs t, parseU16 tok = none →
      VisualRepresentation.from_string "OW" t = RunResult.panicked) ∧
    (∀ n, VisualRepresentation.from_string "US" t =
        RunResult.ok (VisualRepresentation.US n) → parseU16 t = some n) ∧
    (∀ n, VisualRepresentation.from_string "UL" t =
        RunResult.ok (VisualRepresentation.UL n) → parseU32 t = some n) ∧
    (∀ n, VisualRepresentation.from_string "SL" t =
        RunResult.ok (VisualRepresentation.SL n) → parseI32 t = some n) ∧
    (∀ n, VisualRepresentation.from_string "SS" t =
        RunResult.ok (VisualRepresentation.SS n) → parseI16 t = some n) ∧
    (∀ n, VisualRepresentation.from_string "SV" t =
        RunResult.ok (VisualRepresentation.SV n) → parseI64 t = some n) ∧
    (∀ f, VisualRepresentation.from_string "FL" t =
        RunResult.ok (VisualRepresentation.FL f) → parseFloat t = some f) ∧
    (∀ f, VisualRepresentation.from_string "FD" t =
        RunResult.ok (VisualRepresentation.FD f) → parseFloat t = some f) := by
  refine ⟨?_, ?_, ?_, ?_, ?_, ?_, ?_, ?_, ?_, ?_, ?_, ?_, ?_, ?_, ?_, ?_, ?_⟩
  · intro h
    rw [from_string_FL_eq, from_string_FD_eq, h]
    exact ⟨rfl, rfl⟩
  · intro h; rw [from_string_SL_eq, h]; rfl
  · intro h; rw [from_string_SS_eq, h]; rfl
  · intro h; rw [from_string_SV_eq, h]; rfl
  · intro h; rw [from_string_UL_eq, h]; rfl
  · intro h; rw [from_string_US_eq, h]; rfl
  · intro tok htok h
    rw [from_string_OD_eq, from_string_OF_eq, parseAll_eq_none_of_mem parseFloat htok h]
    exact ⟨rfl, rfl⟩
  · intro tok htok h
    rw [from_string_OL_eq, parseAll_eq_none_of_mem parseU32 htok h]; rfl
  · intro tok htok h
    rw [from_string_OV_eq, parseAll_eq_none_of_mem parseI64 htok h]; rfl
  · intro tok htok h
    rw [from_string_OW_eq, parseAll_eq_none_of_mem parseU16 htok h]; rfl
  · intro n h
    rw [from_string_US_eq] at h
    obtain ⟨a, ha, hfa⟩ := unwrapOpt_ok_inv h
    cases hfa; exact ha
  · intro n h
    rw [from_string_UL_eq] at h
    obtain ⟨a, ha, hfa⟩ := unwrapOpt_ok_inv h
    cases hfa; exact ha
  · intro n h
    rw [from_string_SL_eq] at h
    obtain ⟨a, ha, hfa⟩ := unwrapOpt_ok_inv h
    cases hfa; exact ha
  · intro n h
    rw [from_string_SS_eq] at h
    obtain ⟨a, ha, hfa⟩ := unwrapOpt_ok_inv h
    cases hfa; exact ha
  · intro n h
    rw [from_string_SV_eq] at h
    obtain ⟨a, ha, hfa⟩ := unwrapOpt_ok_inv h
    cases hfa; exact ha
  · intro f h
    rw [from_string_FL_eq] at h
    obtain ⟨a, ha, hfa⟩ := unwrapOpt_ok_inv h
    cases hfa; exact ha
  · intro f h
    rw [from_string_FD_eq] at h
    obtain ⟨a, ha, hfa⟩ := unwrapOpt_ok_inv h
    cases hfa; exact ha

/-- Witness for the amended claim C4, at kind `US`, the concrete
malformed input `"not-a-number"`, and the concrete well-formed input
`"7"`. -/
theorem from_string_numeric_malformed_panics_witness :
    (parseU16 "not-a-number" = none ∧
      VisualRepresentation.from_string "US" "not-a-number" = RunResult.panicked) ∧
    (VisualRepresentation.from_string "US" "7" =
        RunResult.ok (VisualRepresentation.US 7) ∧
      parseU16 "7" = some 7) :=
  ⟨⟨by decide,
    (from_string_numeric_malformed_panics "not-a-number").2.2.2.2.2.1 (by decide)⟩,
   ⟨by decide,
    (from_string_numeric_malformed_panics "7").2.2.2.2.2.2.2.2.2.2.1 7 (by decide)⟩⟩

/-- Claim C5: `write(dataset)` on a document whose mode is `ReadOnly`
fails with an `IOError`, touches no file and leaves the document state
unchanged; on a `ReadWrite` document it truncates the file to zero first
under the `Truncate` disposition, seeks to the end first under `Append`,
then writes the encoded bytes and sets the state to `Modified`. -/
theorem document_write_readonly_rejected_readwrite_effects
    (doc : DicomDocument) (ds : Dataset) :
    (doc.mode = DocumentMode.ReadOnly →
      DicomDocument.write doc ds =
        (Except.error (DicomError.IOError "Document is read-only"), doc, [])) ∧
    (doc.mode = DocumentMode.ReadWrite →
      DicomDocument.write doc ds =
        (Except.ok (),
         { doc with state := DocumentState.Modified },
         (if doc.writer = WritingMode.Truncate then [FileOp.setLenZero]
          else if doc.writer = WritingMode.Append then [FileOp.seekEnd]
          else []) ++ [FileOp.writeAll ds.toStr])) := by
  constructor
  · intro h
    simp [DicomDocument.write, h]
  · intro h
    simp [DicomDocument.write, h]

/-- Witness for claim C5: a closed `ReadOnly` document rejects a write
with `IOError` and nothing changes, while a `ReadWrite` document with
the `Truncate` disposition truncates, writes, and becomes `Modified`. -/
theorem document_write_readonly_rejected_readwrite_effects_witness :
    DicomDocument.write docRO Dataset.new =
      (Except.error (DicomError.IOError "Document is read-only"), docRO, []) ∧
    DicomDocument.write docRW Dataset.new =
      (Except.ok (),
       { docRW with state := DocumentState.Modified },
       [FileOp.setLenZero, FileOp.writeAll Dataset.new.toStr]) := by
  constructor
  · exact (document_write_readonly_rejected_readwrite_effects docRO Dataset.new).1 rfl
  · have h := (document_write_readonly_rejected_readwrite_effects docRW Dataset.new).2 rfl
    simpa using h

/-- Claim C6: `open(p)` yields a document in mode `ReadWrite` and state
`Open` (so `is_open()` is true) holding path `p`, with disposition
`Append` when `p` exists on the filesystem and `Overwrite` (create)
when it does not. -/
theorem document_open_readwrite_open_disposition
    (fsExists : String → Bool) (p : String) :
    (DicomDocument.openDoc fsExists p).mode = DocumentMode.ReadWrite ∧
    (DicomDocument.openDoc fsExists p).state = DocumentState.Open ∧
    (DicomDocument.openDoc fsExists p).is_open = true ∧
    (DicomDocument.openDoc fsExists p).path = some p ∧
    (DicomDocument.openDoc fsExists p).writer =
      (if fsExists p then WritingMode.Append else WritingMode.Overwrite) := by
  cases h : fsExists p <;>
    simp [DicomDocument.openDoc, DicomDocument.is_open, h]

/-- Claim C7: after `close()` succeeds the path is discarded, the mode
is `ReadOnly`, the state is `Closed`, and every metadata accessor
(`get_path`, `get_name`, `get_extension`, `get_size`,
`get_creation_date`, `get_modification_date`, `get_access_date`)
returns `None`, whatever the filesystem says. -/
theorem document_close_discards_path_and_metadata
    (doc : DicomDocument) (meta : String → Option FsMetadata) :
    (DicomDocument.close doc).2.1.path = none ∧
    (DicomDocument.close doc).2.1.mode = DocumentMode.ReadOnly ∧
    (DicomDocument.close doc).2.1.state = DocumentState.Closed ∧
    (DicomDocument.close doc).2.1.get_path = none ∧
    (DicomDocument.close doc).2.1.get_name = RunResult.ok none ∧
    (DicomDocument.close doc).2.1.get_extension = RunResult.ok none ∧
    DicomDocument.get_size meta (DicomDocument.close doc).2.1 = RunResult.ok none ∧
    DicomDocument.get_creation_date meta (DicomDocument.close doc).2.1 =
      RunResult.ok none ∧
    DicomDocument.get_modification_date meta (DicomDocument.close doc).2.1 =
      RunResult.ok none ∧
    DicomDocument.get_access_date meta (DicomDocument.close doc).2.1 =
      RunResult.ok none := by
  simp [DicomDocument.close, DicomDocument.get_path, DicomDocument.get_name,
    DicomDocument.get_extension, DicomDocument.get_size,
    DicomDocument.get_creation_date, DicomDocument.get_modification_date,
    DicomDocument.get_access_date]

/-- Claim C8 (spec-modelled; the Attribute constructor is not under
`src/`): constructing an Attribute for a tag whose registry metadata has
`is_deprecated = true` without the legacy-allow flag fails with
`ObsoleteElement`; with the flag it succeeds; and likewise mutating a
deprecated Attribute fails without the flag and succeeds with it. -/
theorem attribute_deprecated_requires_legacy_flag
    (lookup : Nat × Nat → Option AttributeMetadata) (tag : Nat × Nat)
    (md : AttributeMetadata) (hmd : lookup tag = some md)
    (hdep : md.is_deprecated = true) :
    mkAttribute lookup tag false =
      Except.error (DicomError.ObsoleteElement md.name) ∧
    mkAttribute lookup tag true =
      Except.ok
        { tag := tag
          name := md.name
          vr_kind := md.vr_kind
          vr_value := VisualRepresentation.new md.vr_kind
          multiplicity := md.multiplicity
          is_deprecated := md.is_deprecated } ∧
    (∀ (attr : Attribute) (v : VisualRepresentation),
      attr.is_deprecated = true →
        mutateAttribute attr false v =
          Except.error (DicomError.ObsoleteElement attr.name) ∧
        mutateAttribute attr true v = Except.ok { attr with vr_value := v }) := by
  refine ⟨?_, ?_, ?_⟩
  · simp [mkAttribute, hmd, hdep]
  · simp [mkAttribute, hmd, hdep]
  · intro attr v hattr
    constructor
    · simp [mutateAttribute, hattr]
    · simp [mutateAttribute, hattr]

/-- Witness for claim C8, on the fixture registry whose tag `(0008,0041)`
is marked deprecated. -/
theorem attribute_deprecated_requires_legacy_flag_witness :
    mkAttribute sampleRegistry (8, 65) false =
      Except.error (DicomError.ObsoleteElement "DataSetSubtype") ∧
    mkAttribute sampleRegistry (8, 65) true =
      Except.ok
        { tag := (8, 65)
          name := "DataSetSubtype"
          vr_kind := "LO"
          vr_value := VisualRepresentation.new "LO"
          multiplicity := "1-n"
          is_deprecated := true } := by
  have h := attribute_deprecated_requires_legacy_flag sampleRegistry (8, 65)
    sampleMd (by decide) rfl
  exact ⟨h.1, h.2.1⟩

/-- Claim C10: when a document holds a path whose file name has no
extension, `get_extension` panics (the `.unwrap()` on
`Path::extension`); `None` is returned exactly when no path is held at
all. -/
theorem document_get_extension_panics_without_extension
    (doc : DicomDocument) (p : String) :
    (doc.path = some p → pathExtension p = none →
      doc.get_extension = RunResult.panicked) ∧
    (doc.path = none → doc.get_extension = RunResult.ok none) ∧
    (doc.get_extension = RunResult.ok none → doc.path = none) := by
  refine ⟨?_, ?_, ?_⟩
  · intro hp hext
    simp [DicomDocument.get_extension, hp, hext]
  · intro hp
    simp [DicomDocument.get_extension, hp]
  · intro h
    cases hp : doc.path with
    | none => rfl
    | some q =>
      simp [DicomDocument.get_extension, hp] at h
      cases hq : pathExtension q with
      | none => simp [hq] at h
      | some e => simp [hq] at h

/-- Witness for claim C10: the fixture document holding the
extension-less path `"datafile"` makes `get_extension` panic. -/
theorem document_get_extension_panics_without_extension_witness :
    docNoExt.path = some "datafile" ∧
    pathExtension "datafile" = none ∧
    docNoExt.get_extension = RunResult.panicked :=
  ⟨rfl, by decide,
   (document_get_extension_panics_without_extension docNoExt "datafile").1
     rfl (by decide)⟩
